import Mathlib

/-!
# Electronic throttle ECU (`ECU.c`): Normal / Turbo mode state machine

A shallow embedding of the interrupt service routine `ISR` and of one iteration
of the `while(1)` loop of `main` from `src/Projeto final - ECU/src/ECU.c`,
followed by the properties proved about them.

Modelling conventions.

* The globals `mode`, `turbo_timer`, `turbo_active`, `timer_counter`,
  `acel_percent`, the two port bits `RC3` (`NORMAL_PIN`) and `RC4` (`TURBO_PIN`),
  the two interrupt flags `INTF` and `TMR1IF` and the Timer1 registers
  `TMR1L`/`TMR1H` are the fields of one record `State`.
* `unsigned long` is 32 bits wide and `unsigned int` 16 bits wide on the target
  (XC8, PIC16); the only operation that can wrap is `turbo_timer++`, which is
  taken modulo `2 ^ 32`.  `timer_counter--` is guarded by `timer_counter > 0`.
* `acel_percent` is a C `float`; here the arithmetic is exact rational
  arithmetic, the literal `889.56f` being read as `88956 / 100`.
* `__delay_ms` and the LCD calls do not touch any of the modelled variables and
  are left out.
* A run of `ISR` and one loop iteration are atomic steps.
-/

namespace ECU

/-- The global variables and special function register bits used by `ECU.c`. -/
structure State where
  /-- Global `volatile unsigned char mode`: 0 is Normal, anything else is Turbo. -/
  mode : Nat
  /-- Global `volatile unsigned long int turbo_timer`. -/
  turbo_timer : Nat
  /-- Global `volatile bool turbo_active`. -/
  turbo_active : Bool
  /-- Global `volatile unsigned int timer_counter`. -/
  timer_counter : Nat
  /-- Global `volatile float acel_percent`, as a rational number. -/
  acel_percent : ℚ
  /-- Port bit `RC3`. -/
  NORMAL_PIN : Bool
  /-- Port bit `RC4`. -/
  TURBO_PIN : Bool
  /-- External interrupt flag `INTCONbits.INTF`. -/
  INTF : Bool
  /-- Timer1 overflow flag `PIR1bits.TMR1IF`. -/
  TMR1IF : Bool
  /-- Timer1 low byte. -/
  TMR1L : Nat
  /-- Timer1 high byte. -/
  TMR1H : Nat

/-- The interrupt service routine `void __interrupt() ISR()`. -/
def ISR (s0 : State) : State :=
  -- if (INTCONbits.INTF) { mode = !mode; INTCONbits.INTF = 0; }
  let s1 : State :=
    if s0.INTF = true then
      { s0 with mode := if s0.mode = 0 then 1 else 0, INTF := false }
    else s0
  -- if (PIR1bits.TMR1IF) { ... }
  if s1.TMR1IF = true then
    let s2 : State := { s1 with TMR1IF := false, TMR1L := 0xDC, TMR1H := 0x0B }
    if s2.turbo_active = true then
      let s3 : State := { s2 with turbo_timer := (s2.turbo_timer + 1) % 2 ^ 32 }
      if s3.turbo_timer ≥ 20 then
        { s3 with turbo_active := false, turbo_timer := 0, timer_counter := 10 }
      else s3
    else if s2.timer_counter > 0 then
      let s3 : State :=
        { s2 with timer_counter := s2.timer_counter - 1, TURBO_PIN := !s2.TURBO_PIN }
      if s3.timer_counter = 0 then
        { s3 with mode := 0, TURBO_PIN := false }
      else s3
    else s2
  else s1

/-- Normal branch of the loop: `(adc_value / 889.56f) * 100`, then
`if (acel_percent > 100) acel_percent = 100`. -/
def normalPercent (adc_value : Nat) : ℚ :=
  let p : ℚ := ((adc_value : ℚ) / (88956 / 100)) * 100
  if p > 100 then 100 else p

/-- Turbo branch of the loop: `(adc_value / 1023.0f) * 115`, then
`if (acel_percent > 115) acel_percent = 115`. -/
def turboPercent (adc_value : Nat) : ℚ :=
  let p : ℚ := ((adc_value : ℚ) / 1023) * 115
  if p > 115 then 115 else p

/-- One iteration of the `while(1)` loop of `main`, lines 116 to 133, with the
value returned by `read_ADC()` as argument. -/
def loopIteration (adc_value : Nat) (s0 : State) : State :=
  if s0.mode = 0 then
    { s0 with NORMAL_PIN := true, TURBO_PIN := false,
              acel_percent := normalPercent adc_value }
  else
    let s1 : State :=
      { s0 with TURBO_PIN := true, NORMAL_PIN := false,
                acel_percent := turboPercent adc_value }
    if s1.acel_percent = 115 ∧ s1.turbo_active = false ∧ s1.timer_counter = 0 then
      { s1 with turbo_active := true, turbo_timer := 0 }
    else s1

/-- A Timer1 overflow: the hardware raises `TMR1IF` and the ISR runs. -/
def tick (s : State) : State :=
  ISR { s with TMR1IF := true }

/-- A falling edge on the external interrupt pin: the hardware raises `INTF`
and the ISR runs. -/
def toggle (s : State) : State :=
  ISR { s with INTF := true }

/-- The state after `k` consecutive Timer1 overflows. -/
def ticks : Nat → State → State
  | 0, s => s
  | k + 1, s => tick (ticks k s)

/-- The three kinds of atomic step. -/
inductive Event where
  | toggle : Event
  | tick : Event
  | loop (adc_value : Nat) : Event

/-- The effect of one atomic step. -/
def step (s : State) : Event → State
  | Event.toggle => toggle s
  | Event.tick => tick s
  | Event.loop adc_value => loopIteration adc_value s

/-- The state after a sequence of atomic steps, first event first. -/
def run (s : State) : List Event → State
  | [] => s
  | e :: es => run (step s e) es

/-- The state when `main` enters its loop: the globals have their initialisers,
`NORMAL_PIN` was set to 1, and no interrupt is pending. -/
def init : State :=
  { mode := 0, turbo_timer := 0, turbo_active := false, timer_counter := 0,
    acel_percent := 0, NORMAL_PIN := true, TURBO_PIN := false,
    INTF := false, TMR1IF := false, TMR1L := 0xDC, TMR1H := 0x0B }

/-- Initial control state: the four control globals have their initialisers and
no interrupt is pending; the other fields are arbitrary. -/
def IsInitial (s : State) : Prop :=
  s.mode = 0 ∧ s.turbo_active = false ∧ s.turbo_timer = 0 ∧ s.timer_counter = 0 ∧
    s.INTF = false ∧ s.TMR1IF = false

/-- A state just after engagement in Turbo mode: the loop has set `TURBO_PIN`,
cleared `NORMAL_PIN`, stored 115 in `acel_percent` and set `turbo_active`. -/
def justEngaged : State :=
  { init with mode := 1, turbo_active := true, acel_percent := 115,
              NORMAL_PIN := false, TURBO_PIN := true }

/-- Turbo mode selected, phase Idle: the state after one toggle from `init`. -/
def idleTurbo : State :=
  { init with mode := 1 }

/-- Engaged for 7 ticks in Turbo mode, with an external interrupt pending. -/
def engagedTogglePending : State :=
  { justEngaged with turbo_timer := 7, INTF := true }

/-- Last tick of the cooldown pending: Turbo mode, `timer_counter = 1`, the
indicator on, `TMR1IF` raised. -/
def cooldownLastTickPending : State :=
  { idleTurbo with timer_counter := 1, TURBO_PIN := true, TMR1IF := true }

/-- Every toggle in the event sequence happens while `turbo_active` is false. -/
def TogglesWhileNotEngaged (s : State) : List Event → Prop
  | [] => True
  | e :: es => (e = Event.toggle → s.turbo_active = false) ∧
      TogglesWhileNotEngaged (step s e) es

/-- The second LCD line written by the loop, lines 141 to 146: the caption
`Modo: ` followed by the label of the mode read at that point. -/
def modeLine (s : State) : String :=
  if s.mode = 0 then "Modo: Normal" else "Modo: Turbo"

/-- Clamping of a value to the interval from `lo` to `hi`. -/
def clampTo (lo hi x : ℚ) : ℚ :=
  max lo (min hi x)

/-- Reference formula of the specification for Normal mode:
`sample / NORMAL_SCALE * 100`, clamped to `[0, 100]`, with
`NORMAL_SCALE = 889.56`. -/
def normalPercentSpec (sample : Nat) : ℚ :=
  clampTo 0 100 ((sample : ℚ) / (88956 / 100) * 100)

/-- Reference formula of the specification for Turbo mode:
`sample / MAX_SAMPLE * 115`, clamped to `[0, 115]`, with `MAX_SAMPLE = 1023`. -/
def turboPercentSpec (sample : Nat) : ℚ :=
  clampTo 0 115 ((sample : ℚ) / 1023 * 115)

/-- Number of timer ticks in an event sequence. -/
def tickCount : List Event → Nat
  | [] => 0
  | Event.tick :: es => tickCount es + 1
  | _ :: es => tickCount es

/-- An event sequence with `n` ticks, each preceded by a toggle and a loop
iteration at full throttle. -/
def interleaved : Nat → List Event
  | 0 => []
  | n + 1 => Event.toggle :: Event.loop 1023 :: Event.tick :: interleaved n

/-- Middle of the cooldown in Turbo mode: `timer_counter = 5`, the indicator on,
`TMR1IF` raised. -/
def cooldownMidTickPending : State :=
  { idleTurbo with timer_counter := 5, TURBO_PIN := true, TMR1IF := true }

/-- Last tick of the engage period pending: Turbo mode, `turbo_timer = 19`,
`TMR1IF` raised. -/
def engagedLastTickPending : State :=
  { justEngaged with turbo_timer := 19, TMR1IF := true }

/-- Cooldown in Turbo mode, the last blink having switched the indicator off. -/
def cooldownBlinkOff : State :=
  { idleTurbo with timer_counter := 5, TURBO_PIN := false }

/-- Cooldown after a manual switch to Normal mode, the last blink having
switched the indicator on. -/
def cooldownNormalBlinkOn : State :=
  { init with timer_counter := 5, TURBO_PIN := true }

/-- Position `n` in the engage and cooldown cycle, counted in ticks since
engagement, with no timer interrupt pending: for `n < 20` the engage count is
`n`, from 20 on the cooldown counter holds `30 - n`. -/
def AtCyclePos (n : Nat) (s : State) : Prop :=
  s.TMR1IF = false ∧
    if n < 20 then s.turbo_active = true ∧ s.turbo_timer = n
    else s.turbo_active = false ∧ s.turbo_timer = 0 ∧ s.timer_counter = 30 - n

/-! ## Single-step lemmas for the timer branch of `ISR` -/

theorem tick_turbo_active_of_lt (s : State) (ha : s.turbo_active = true)
    (ht : s.turbo_timer < 19) :
    (tick s).turbo_active = true ∧ (tick s).turbo_timer = s.turbo_timer + 1 ∧
      (tick s).timer_counter = s.timer_counter := by
  have h1 : (s.turbo_timer + 1) % 4294967296 = s.turbo_timer + 1 :=
    Nat.mod_eq_of_lt (by omega)
  have h2 : ¬ 20 ≤ s.turbo_timer + 1 := by omega
  by_cases hi : s.INTF = true <;> simp [tick, ISR, ha, hi, h1, h2]

theorem tick_turbo_active_last (s : State) (ha : s.turbo_active = true)
    (ht : s.turbo_timer = 19) :
    (tick s).turbo_active = false ∧ (tick s).turbo_timer = 0 ∧
      (tick s).timer_counter = 10 := by
  by_cases hi : s.INTF = true <;> simp [tick, ISR, ha, hi, ht]

theorem tick_cooldown_of_gt (s : State) (ha : s.turbo_active = false)
    (hc : 1 < s.timer_counter) :
    (tick s).turbo_active = false ∧ (tick s).turbo_timer = s.turbo_timer ∧
      (tick s).timer_counter = s.timer_counter - 1 := by
  have h1 : 0 < s.timer_counter := by omega
  have h2 : ¬ s.timer_counter - 1 = 0 := by omega
  by_cases hi : s.INTF = true <;> simp [tick, ISR, ha, hi, h1, h2]

theorem tick_cooldown_last (s : State) (ha : s.turbo_active = false)
    (hc : s.timer_counter = 1) :
    (tick s).turbo_active = false ∧ (tick s).turbo_timer = s.turbo_timer ∧
      (tick s).timer_counter = 0 ∧ (tick s).mode = 0 ∧ (tick s).TURBO_PIN = false := by
  by_cases hi : s.INTF = true <;> simp [tick, ISR, ha, hi, hc]

/-! ## Single runs of `ISR` with one flag raised -/

theorem ISR_of_INTF_only (s : State) (hI : s.INTF = true) (hT : s.TMR1IF = false) :
    ISR s = { s with mode := if s.mode = 0 then 1 else 0, INTF := false } := by
  simp [ISR, hI, hT]

theorem ISR_idle_of_TMR1IF_only (s : State) (ha : s.turbo_active = false)
    (hc : s.timer_counter = 0) (hI : s.INTF = false) (hT : s.TMR1IF = true) :
    ISR s = { s with TMR1IF := false, TMR1L := 0xDC, TMR1H := 0x0B } := by
  simp [ISR, hI, hT, ha, hc]

theorem ISR_cooldown_last (s : State) (ha : s.turbo_active = false)
    (hc : s.timer_counter = 1) (hT : s.TMR1IF = true) :
    (ISR s).timer_counter = 0 ∧ (ISR s).turbo_active = false ∧ (ISR s).mode = 0 ∧
      (ISR s).TURBO_PIN = false := by
  by_cases hI : s.INTF = true <;> simp [ISR, hI, hT, ha, hc]

/-! ## The throttle mapping -/

theorem turboPercent_eq_ceiling_iff (adc_value : Nat) :
    turboPercent adc_value = 115 ↔ 1023 ≤ adc_value := by
  have key : ((adc_value : ℚ) / 1023) * 115 = 115 * (adc_value : ℚ) / 1023 := by ring
  simp only [turboPercent, key]
  split_ifs with h
  · simp only [true_iff]
    rw [gt_iff_lt, lt_div_iff₀ (by norm_num)] at h
    have h' : (1023 : ℚ) < adc_value := by linarith
    exact_mod_cast h'.le
  · rw [gt_iff_lt, lt_div_iff₀ (by norm_num), not_lt] at h
    have h' : (adc_value : ℚ) ≤ 1023 := by linarith
    have h'' : adc_value ≤ 1023 := by exact_mod_cast h'
    rw [div_eq_iff (by norm_num)]
    constructor
    · intro he
      have : (adc_value : ℚ) = 1023 := by linarith
      have : adc_value = 1023 := by exact_mod_cast this
      omega
    · intro hle
      have : adc_value = 1023 := by omega
      subst this
      norm_num

theorem normalPercent_nonneg (adc_value : Nat) : 0 ≤ normalPercent adc_value := by
  simp only [normalPercent]
  split_ifs
  · norm_num
  · positivity

theorem normalPercent_le (adc_value : Nat) : normalPercent adc_value ≤ 100 := by
  simp only [normalPercent]
  split_ifs with h
  · exact le_refl _
  · exact not_lt.mp h

theorem turboPercent_nonneg (adc_value : Nat) : 0 ≤ turboPercent adc_value := by
  simp only [turboPercent]
  split_ifs
  · norm_num
  · positivity

theorem turboPercent_le (adc_value : Nat) : turboPercent adc_value ≤ 115 := by
  simp only [turboPercent]
  split_ifs with h
  · exact le_refl _
  · exact not_lt.mp h
/-- The loop iteration with the engagement test `acel_percent == 115` expressed
on the sample. -/
theorem loopIteration_eq (adc_value : Nat) (s : State) :
    loopIteration adc_value s =
      if s.mode = 0 then
        { s with NORMAL_PIN := true, TURBO_PIN := false,
                 acel_percent := normalPercent adc_value }
      else if 1023 ≤ adc_value ∧ s.turbo_active = false ∧ s.timer_counter = 0 then
        { s with TURBO_PIN := true, NORMAL_PIN := false,
                 acel_percent := turboPercent adc_value,
                 turbo_active := true, turbo_timer := 0 }
      else
        { s with TURBO_PIN := true, NORMAL_PIN := false,
                 acel_percent := turboPercent adc_value } := by
  simp only [loopIteration, turboPercent_eq_ceiling_iff]

theorem loopIteration_phase_of_not_idle (adc_value : Nat) (s : State)
    (h : s.turbo_active = true ∨ 0 < s.timer_counter) :
    (loopIteration adc_value s).turbo_active = s.turbo_active ∧
      (loopIteration adc_value s).turbo_timer = s.turbo_timer ∧
      (loopIteration adc_value s).timer_counter = s.timer_counter := by
  have hn : ¬ (1023 ≤ adc_value ∧ s.turbo_active = false ∧ s.timer_counter = 0) := by
    rintro ⟨_, h1, h2⟩
    rcases h with h | h
    · rw [h1] at h; exact Bool.false_ne_true h
    · omega
  rw [loopIteration_eq, if_neg hn]
  split_ifs <;> exact ⟨rfl, rfl, rfl⟩

theorem loopIteration_engage (adc_value : Nat) (s : State) (hm : s.mode ≠ 0)
    (hadc : 1023 ≤ adc_value) (ha : s.turbo_active = false) (hc : s.timer_counter = 0) :
    (loopIteration adc_value s).turbo_active = true ∧
      (loopIteration adc_value s).turbo_timer = 0 ∧
      (loopIteration adc_value s).timer_counter = 0 ∧
      (loopIteration adc_value s).mode = s.mode := by
  rw [loopIteration_eq, if_neg hm, if_pos ⟨hadc, ha, hc⟩]
  exact ⟨rfl, rfl, hc, rfl⟩

theorem loopIteration_idle_stays (adc_value : Nat) (s : State)
    (h : s.mode = 0 ∨ adc_value < 1023) (ha : s.turbo_active = false) :
    (loopIteration adc_value s).turbo_active = false ∧
      (loopIteration adc_value s).turbo_timer = s.turbo_timer ∧
      (loopIteration adc_value s).timer_counter = s.timer_counter := by
  rw [loopIteration_eq]
  by_cases hm : s.mode = 0
  · rw [if_pos hm]; exact ⟨ha, rfl, rfl⟩
  · have hlt : adc_value < 1023 := h.resolve_left hm
    have hn : ¬ (1023 ≤ adc_value ∧ s.turbo_active = false ∧ s.timer_counter = 0) := by
      rintro ⟨h1, _, _⟩; omega
    rw [if_neg hm, if_neg hn]; exact ⟨ha, rfl, rfl⟩

theorem loopIteration_acel_percent (adc_value : Nat) (s : State) :
    (loopIteration adc_value s).acel_percent =
      if s.mode = 0 then normalPercent adc_value else turboPercent adc_value := by
  rw [loopIteration_eq]
  split_ifs <;> rfl

/-! ## Invariant of the guarded runs -/

theorem ISR_INTF (s : State) : (ISR s).INTF = false := by
  obtain ⟨m, tt, ta, tc, ap, np, tp, fi, ft, l, h⟩ := s
  cases fi <;> cases ft <;> cases ta <;> simp [ISR] <;> split_ifs <;> simp

theorem ISR_turbo_active_of_false (s : State) (ha : s.turbo_active = false) :
    (ISR s).turbo_active = false := by
  obtain ⟨m, tt, ta, tc, ap, np, tp, fi, ft, l, h⟩ := s
  simp only at ha
  subst ha
  cases fi <;> cases ft <;> simp [ISR] <;> split_ifs <;> simp

theorem ISR_mode_of_turbo_active (s : State) (hf : s.INTF = false)
    (ha : s.turbo_active = true) : (ISR s).mode = s.mode := by
  obtain ⟨m, tt, ta, tc, ap, np, tp, fi, ft, l, h⟩ := s
  simp only at ha hf
  subst ha hf
  cases ft
  · simp [ISR]
  · simp only [ISR, Bool.false_eq_true, if_false, if_true]
    split_ifs <;> rfl

theorem loopIteration_INTF (adc_value : Nat) (s : State) :
    (loopIteration adc_value s).INTF = s.INTF := by
  simp only [loopIteration]
  split_ifs <;> rfl

theorem loopIteration_mode (adc_value : Nat) (s : State) :
    (loopIteration adc_value s).mode = s.mode := by
  simp only [loopIteration]
  split_ifs <;> rfl

theorem loopIteration_turbo_active_of_normal (adc_value : Nat) (s : State)
    (hm : s.mode = 0) : (loopIteration adc_value s).turbo_active = s.turbo_active := by
  simp [loopIteration, hm]

theorem step_preserves_normal_not_engaged (s : State) (e : Event)
    (hf : s.INTF = false) (hinv : s.mode = 0 → s.turbo_active = false)
    (hg : e = Event.toggle → s.turbo_active = false) :
    (step s e).INTF = false ∧ ((step s e).mode = 0 → (step s e).turbo_active = false) := by
  cases e with
  | toggle =>
    exact ⟨ISR_INTF _, fun _ => ISR_turbo_active_of_false _ (hg rfl)⟩
  | tick =>
    refine ⟨ISR_INTF _, fun hm => ?_⟩
    cases hta : s.turbo_active with
    | false => exact ISR_turbo_active_of_false _ hta
    | true =>
      have h1 : (tick s).mode = s.mode := ISR_mode_of_turbo_active _ hf hta
      have h2 : s.mode = 0 := h1.symm.trans hm
      rw [hinv h2] at hta
      exact absurd hta Bool.false_ne_true
  | loop adc_value =>
    refine ⟨(loopIteration_INTF adc_value s).trans hf, fun hm => ?_⟩
    have h2 : s.mode = 0 := (loopIteration_mode adc_value s).symm.trans hm
    exact (loopIteration_turbo_active_of_normal adc_value s h2).trans (hinv h2)

theorem run_preserves_normal_not_engaged (es : List Event) :
    ∀ s : State, s.INTF = false → (s.mode = 0 → s.turbo_active = false) →
      TogglesWhileNotEngaged s es →
      ((run s es).mode = 0 → (run s es).turbo_active = false) := by
  induction es with
  | nil => intro s _ hinv _; exact hinv
  | cons e es ih =>
    intro s hf hinv hg
    obtain ⟨h1, h2⟩ := step_preserves_normal_not_engaged s e hf hinv hg.1
    exact ih (step s e) h1 h2 hg.2

/-! ## The engage and cooldown countdowns under consecutive ticks -/

theorem ticks_engaged (s : State) (ha : s.turbo_active = true) (ht : s.turbo_timer = 0) :
    ∀ k, k ≤ 19 → (ticks k s).turbo_active = true ∧ (ticks k s).turbo_timer = k ∧
      (ticks k s).timer_counter = s.timer_counter := by
  intro k
  induction k with
  | zero => intro _; exact ⟨ha, ht, rfl⟩
  | succ k ih =>
    intro hk
    obtain ⟨h1, h2, h3⟩ := ih (by omega)
    obtain ⟨g1, g2, g3⟩ := tick_turbo_active_of_lt (ticks k s) h1 (by omega)
    refine ⟨g1, ?_, ?_⟩
    · show (tick (ticks k s)).turbo_timer = k + 1
      rw [g2, h2]
    · show (tick (ticks k s)).timer_counter = s.timer_counter
      rw [g3, h3]

theorem ticks_twenty (s : State) (ha : s.turbo_active = true) (ht : s.turbo_timer = 0) :
    (ticks 20 s).turbo_active = false ∧ (ticks 20 s).turbo_timer = 0 ∧
      (ticks 20 s).timer_counter = 10 := by
  obtain ⟨h1, h2, _⟩ := ticks_engaged s ha ht 19 (le_refl 19)
  exact tick_turbo_active_last (ticks 19 s) h1 h2

theorem ticks_cooldown (s : State) (ha : s.turbo_active = true) (ht : s.turbo_timer = 0) :
    ∀ j, j ≤ 9 → (ticks (20 + j) s).turbo_active = false ∧
      (ticks (20 + j) s).turbo_timer = 0 ∧ (ticks (20 + j) s).timer_counter = 10 - j := by
  intro j
  induction j with
  | zero => intro _; exact ticks_twenty s ha ht
  | succ j ih =>
    intro hj
    obtain ⟨h1, h2, h3⟩ := ih (by omega)
    obtain ⟨g1, g2, g3⟩ := tick_cooldown_of_gt (ticks (20 + j) s) h1 (by omega)
    refine ⟨g1, ?_, ?_⟩
    · show (tick (ticks (20 + j) s)).turbo_timer = 0
      rw [g2, h2]
    · show (tick (ticks (20 + j) s)).timer_counter = 10 - (j + 1)
      rw [g3, h3]; omega

theorem ticks_thirty (s : State) (ha : s.turbo_active = true) (ht : s.turbo_timer = 0) :
    (ticks 30 s).turbo_active = false ∧ (ticks 30 s).turbo_timer = 0 ∧
      (ticks 30 s).timer_counter = 0 ∧ (ticks 30 s).mode = 0 ∧
      (ticks 30 s).TURBO_PIN = false := by
  obtain ⟨h1, h2, h3⟩ := ticks_cooldown s ha ht 9 (le_refl 9)
  obtain ⟨g1, g2, g3, g4, g5⟩ := tick_cooldown_last (ticks 29 s) h1 h3
  exact ⟨g1, g2.trans h2, g3, g4, g5⟩

/-! ## Further single-step facts -/

theorem ISR_cooldown_mid (s : State) (ha : s.turbo_active = false)
    (hc : 2 ≤ s.timer_counter) (hI : s.INTF = false) (hT : s.TMR1IF = true) :
    ISR s = { s with TMR1IF := false, TMR1L := 0xDC, TMR1H := 0x0B,
                     timer_counter := s.timer_counter - 1,
                     TURBO_PIN := !s.TURBO_PIN } := by
  have h1 : 0 < s.timer_counter := by omega
  have h2 : ¬ s.timer_counter - 1 = 0 := by omega
  simp [ISR, hI, hT, ha, h1, h2]

theorem ISR_mode_of_TMR1IF_only (s : State) (hI : s.INTF = false) (hT : s.TMR1IF = true) :
    (ISR s).mode = if s.turbo_active = false ∧ s.timer_counter = 1 then 0 else s.mode := by
  cases ha : s.turbo_active with
  | true =>
    rw [ISR_mode_of_turbo_active s hI ha]
    simp
  | false =>
    by_cases h1 : s.timer_counter = 1
    · rw [(ISR_cooldown_last s ha h1 hT).2.2.1]
      simp [h1]
    · by_cases h0 : s.timer_counter = 0
      · rw [ISR_idle_of_TMR1IF_only s ha h0 hI hT]
        simp [h1]
      · rw [ISR_cooldown_mid s ha (by omega) hI hT]
        simp [h1]

theorem ISR_engaged_last (s : State) (ha : s.turbo_active = true)
    (ht : s.turbo_timer = 19) (hT : s.TMR1IF = true) :
    (ISR s).turbo_active = false ∧ (ISR s).turbo_timer = 0 ∧
      (ISR s).timer_counter = 10 := by
  by_cases hi : s.INTF = true <;> simp [ISR, ha, hi, ht, hT]

theorem loopIteration_pins (adc_value : Nat) (s : State) :
    (loopIteration adc_value s).NORMAL_PIN = decide (s.mode = 0) ∧
      (loopIteration adc_value s).TURBO_PIN = !decide (s.mode = 0) := by
  rw [loopIteration_eq]
  split_ifs with h1 h2 <;> simp [h1]

/-! ## The throttle mapping against its reference formula -/

theorem normalPercent_eq_min (adc_value : Nat) :
    normalPercent adc_value = min 100 ((adc_value : ℚ) / (88956 / 100) * 100) := by
  simp only [normalPercent]
  split_ifs with h
  · exact (min_eq_left h.le).symm
  · exact (min_eq_right (not_lt.mp h)).symm

theorem turboPercent_eq_min (adc_value : Nat) :
    turboPercent adc_value = min 115 ((adc_value : ℚ) / 1023 * 115) := by
  simp only [turboPercent]
  split_ifs with h
  · exact (min_eq_left h.le).symm
  · exact (min_eq_right (not_lt.mp h)).symm

theorem normalPercent_eq_spec (adc_value : Nat) :
    normalPercent adc_value = normalPercentSpec adc_value := by
  rw [normalPercent_eq_min, normalPercentSpec, clampTo]
  exact (max_eq_right (le_min (by norm_num) (by positivity))).symm

theorem turboPercent_eq_spec (adc_value : Nat) :
    turboPercent adc_value = turboPercentSpec adc_value := by
  rw [turboPercent_eq_min, turboPercentSpec, clampTo]
  exact (max_eq_right (le_min (by norm_num) (by positivity))).symm

theorem normalPercent_of_le (adc_value : Nat) (h : adc_value ≤ 889) :
    normalPercent adc_value = (adc_value : ℚ) / (88956 / 100) * 100 := by
  rw [normalPercent_eq_min]
  apply min_eq_right
  have h' : (adc_value : ℚ) ≤ 889 := by exact_mod_cast h
  rw [div_mul_eq_mul_div, div_le_iff₀ (by norm_num)]
  linarith

theorem normalPercent_of_ge (adc_value : Nat) (h : 890 ≤ adc_value) :
    normalPercent adc_value = 100 := by
  rw [normalPercent_eq_min]
  apply min_eq_left
  have h' : (890 : ℚ) ≤ adc_value := by exact_mod_cast h
  rw [div_mul_eq_mul_div, le_div_iff₀ (by norm_num)]
  linarith

theorem turboPercent_of_le (adc_value : Nat) (h : adc_value ≤ 1023) :
    turboPercent adc_value = (adc_value : ℚ) / 1023 * 115 := by
  rw [turboPercent_eq_min]
  apply min_eq_right
  have h' : (adc_value : ℚ) ≤ 1023 := by exact_mod_cast h
  rw [div_mul_eq_mul_div, div_le_iff₀ (by norm_num)]
  linarith

theorem normalPercent_lt_of_le (adc_value : Nat) (h : adc_value ≤ 889) :
    normalPercent adc_value < 100 := by
  rw [normalPercent_of_le adc_value h]
  have h' : (adc_value : ℚ) ≤ 889 := by exact_mod_cast h
  rw [div_mul_eq_mul_div, div_lt_iff₀ (by norm_num)]
  linarith

theorem normalPercent_mono (a b : Nat) (h : a ≤ b) : normalPercent a ≤ normalPercent b := by
  rw [normalPercent_eq_min, normalPercent_eq_min]
  have h' : (a : ℚ) ≤ b := by exact_mod_cast h
  refine min_le_min le_rfl ?_
  gcongr

theorem turboPercent_mono (a b : Nat) (h : a ≤ b) : turboPercent a ≤ turboPercent b := by
  rw [turboPercent_eq_min, turboPercent_eq_min]
  have h' : (a : ℚ) ≤ b := by exact_mod_cast h
  refine min_le_min le_rfl ?_
  gcongr

theorem percent_gap_below_saturation (a : Nat) (h : a ≤ 889) :
    0 ≤ normalPercent a - turboPercent a ∧ normalPercent a - turboPercent a < 1 / 1000 := by
  rw [normalPercent_of_le a h, turboPercent_of_le a (by omega)]
  have h' : (a : ℚ) ≤ 889 := by exact_mod_cast h
  have h0 : (0 : ℚ) ≤ a := by positivity
  have e : (a : ℚ) / (88956 / 100) * 100 - (a : ℚ) / 1023 * 115 =
      (a : ℚ) * (10000 / 88956 - 115 / 1023) := by ring
  rw [e]
  constructor
  · apply mul_nonneg h0; norm_num
  · have hpos : (0 : ℚ) < 10000 / 88956 - 115 / 1023 := by norm_num
    calc (a : ℚ) * (10000 / 88956 - 115 / 1023)
        ≤ 889 * (10000 / 88956 - 115 / 1023) := by
          exact mul_le_mul_of_nonneg_right h' hpos.le
      _ < 1 / 1000 := by norm_num

theorem turboPercent_gt_of_ge (a : Nat) (h1 : 890 ≤ a) (h2 : a ≤ 1023) :
    100 < turboPercent a := by
  rw [turboPercent_of_le a h2]
  have h' : (890 : ℚ) ≤ a := by exact_mod_cast h1
  rw [div_mul_eq_mul_div, lt_div_iff₀ (by norm_num)]
  linarith

theorem modeLine_of_normal (s : State) (hm : s.mode = 0) :
    modeLine s = "Modo: Normal" := by
  simp [modeLine, hm]

/-! ## Invariants of all runs -/

theorem ISR_TMR1IF (s : State) : (ISR s).TMR1IF = false := by
  obtain ⟨m, tt, ta, tc, ap, np, tp, fi, ft, l, h⟩ := s
  cases fi <;> cases ft <;> cases ta <;> simp [ISR] <;> split_ifs <;> simp

theorem loopIteration_TMR1IF (adc_value : Nat) (s : State) :
    (loopIteration adc_value s).TMR1IF = s.TMR1IF := by
  rw [loopIteration_eq]
  split_ifs <;> rfl

theorem ISR_counters_bounded (s : State) (h : s.turbo_timer < 20 ∧ s.timer_counter ≤ 10) :
    (ISR s).turbo_timer < 20 ∧ (ISR s).timer_counter ≤ 10 := by
  obtain ⟨m, tt, ta, tc, ap, np, tp, fi, ft, l, hh⟩ := s
  simp only at h
  cases fi <;> cases ft <;> cases ta <;> simp [ISR] <;> (try split_ifs) <;>
    (try simp) <;> omega

theorem loopIteration_counters_bounded (adc_value : Nat) (s : State)
    (h : s.turbo_timer < 20 ∧ s.timer_counter ≤ 10) :
    (loopIteration adc_value s).turbo_timer < 20 ∧
      (loopIteration adc_value s).timer_counter ≤ 10 := by
  rw [loopIteration_eq]
  split_ifs
  · exact h
  · exact ⟨by norm_num, h.2⟩
  · exact h

theorem step_counters_bounded (s : State) (e : Event)
    (h : s.turbo_timer < 20 ∧ s.timer_counter ≤ 10) :
    (step s e).turbo_timer < 20 ∧ (step s e).timer_counter ≤ 10 := by
  cases e with
  | toggle => exact ISR_counters_bounded _ h
  | tick => exact ISR_counters_bounded _ h
  | loop adc_value => exact loopIteration_counters_bounded adc_value s h

theorem run_counters_bounded (es : List Event) :
    ∀ s : State, s.turbo_timer < 20 ∧ s.timer_counter ≤ 10 →
      (run s es).turbo_timer < 20 ∧ (run s es).timer_counter ≤ 10 := by
  induction es with
  | nil => intro s h; exact h
  | cons e es ih => intro s h; exact ih (step s e) (step_counters_bounded s e h)

theorem ISR_phase_legal (s : State)
    (h : (s.turbo_active = true → s.timer_counter = 0) ∧
      (s.turbo_timer ≠ 0 → s.turbo_active = true)) :
    ((ISR s).turbo_active = true → (ISR s).timer_counter = 0) ∧
      ((ISR s).turbo_timer ≠ 0 → (ISR s).turbo_active = true) := by
  obtain ⟨m, tt, ta, tc, ap, np, tp, fi, ft, l, hh⟩ := s
  simp only at h
  cases fi <;> cases ft <;> cases ta <;> simp [ISR] <;> (try split_ifs) <;>
    simp_all

theorem loopIteration_phase_legal (adc_value : Nat) (s : State)
    (h : (s.turbo_active = true → s.timer_counter = 0) ∧
      (s.turbo_timer ≠ 0 → s.turbo_active = true)) :
    ((loopIteration adc_value s).turbo_active = true →
        (loopIteration adc_value s).timer_counter = 0) ∧
      ((loopIteration adc_value s).turbo_timer ≠ 0 →
        (loopIteration adc_value s).turbo_active = true) := by
  rw [loopIteration_eq]
  split_ifs with h1 h2
  · exact h
  · exact ⟨fun _ => h2.2.2, fun h0 => absurd rfl h0⟩
  · exact h

theorem step_phase_legal (s : State) (e : Event)
    (h : (s.turbo_active = true → s.timer_counter = 0) ∧
      (s.turbo_timer ≠ 0 → s.turbo_active = true)) :
    ((step s e).turbo_active = true → (step s e).timer_counter = 0) ∧
      ((step s e).turbo_timer ≠ 0 → (step s e).turbo_active = true) := by
  cases e with
  | toggle => exact ISR_phase_legal _ h
  | tick => exact ISR_phase_legal _ h
  | loop adc_value => exact loopIteration_phase_legal adc_value s h

theorem run_phase_legal (es : List Event) :
    ∀ s : State, ((s.turbo_active = true → s.timer_counter = 0) ∧
        (s.turbo_timer ≠ 0 → s.turbo_active = true)) →
      (((run s es).turbo_active = true → (run s es).timer_counter = 0) ∧
        ((run s es).turbo_timer ≠ 0 → (run s es).turbo_active = true)) := by
  induction es with
  | nil => intro s h; exact h
  | cons e es ih => intro s h; exact ih (step s e) (step_phase_legal s e h)

/-! ## The cycle under arbitrary interleavings -/

theorem run_append_singleton (es : List Event) (e : Event) :
    ∀ s : State, run s (es ++ [e]) = step (run s es) e := by
  induction es with
  | nil => intro s; rfl
  | cons e1 es ih => intro s; exact ih (step s e1)

theorem toggle_keeps_AtCyclePos (n : Nat) (s : State) (h : AtCyclePos n s) :
    AtCyclePos n (toggle s) := by
  have hT : ({ s with INTF := true } : State).TMR1IF = false := h.1
  have e := ISR_of_INTF_only { s with INTF := true } rfl hT
  unfold toggle
  rw [e]
  exact h

theorem loopIteration_keeps_AtCyclePos (adc_value n : Nat) (s : State)
    (h : AtCyclePos n s) (hn : n ≤ 29) : AtCyclePos n (loopIteration adc_value s) := by
  obtain ⟨hT, hp⟩ := h
  have hphase : s.turbo_active = true ∨ 0 < s.timer_counter := by
    by_cases h20 : n < 20
    · rw [if_pos h20] at hp; exact Or.inl hp.1
    · rw [if_neg h20] at hp; right; omega
  obtain ⟨g1, g2, g3⟩ := loopIteration_phase_of_not_idle adc_value s hphase
  refine ⟨(loopIteration_TMR1IF adc_value s).trans hT, ?_⟩
  rw [g1, g2, g3]
  exact hp

theorem tick_advances_AtCyclePos (n : Nat) (s : State) (h : AtCyclePos n s)
    (hn : n ≤ 28) : AtCyclePos (n + 1) (tick s) := by
  obtain ⟨_, hp⟩ := h
  refine ⟨ISR_TMR1IF _, ?_⟩
  by_cases h19 : n < 19
  · rw [if_pos (by omega)] at hp
    obtain ⟨g1, g2, _⟩ := tick_turbo_active_of_lt s hp.1 (by omega)
    rw [if_pos (by omega)]
    exact ⟨g1, by rw [g2, hp.2]⟩
  · by_cases h20 : n < 20
    · rw [if_pos h20] at hp
      obtain ⟨g1, g2, g3⟩ := tick_turbo_active_last s hp.1 (by omega)
      rw [if_neg (by omega)]
      exact ⟨g1, g2, by omega⟩
    · rw [if_neg h20] at hp
      obtain ⟨g1, g2, g3⟩ := tick_cooldown_of_gt s hp.1 (by omega)
      rw [if_neg (by omega)]
      exact ⟨g1, by rw [g2, hp.2.1], by omega⟩

theorem run_AtCyclePos (es : List Event) :
    ∀ (n : Nat) (s : State), AtCyclePos n s → n + tickCount es ≤ 29 →
      AtCyclePos (n + tickCount es) (run s es) := by
  induction es with
  | nil => intro n s h _; exact h
  | cons e es ih =>
    intro n s h hn
    cases e with
    | toggle =>
      exact ih n (toggle s) (toggle_keeps_AtCyclePos n s h) hn
    | tick =>
      have hn1 : n + 1 + tickCount es ≤ 29 := by
        simp only [tickCount] at hn; omega
      have := ih (n + 1) (tick s) (tick_advances_AtCyclePos n s h (by omega)) hn1
      have e : n + tickCount (Event.tick :: es) = n + 1 + tickCount es := by
        simp only [tickCount]; omega
      rw [e]
      exact this
    | loop adc_value =>
      have hn0 : n ≤ 29 := by
        simp only [tickCount] at hn; omega
      exact ih n (loopIteration adc_value s)
        (loopIteration_keeps_AtCyclePos adc_value n s h hn0) hn

theorem AtCyclePos_zero (s : State) (ha : s.turbo_active = true)
    (ht : s.turbo_timer = 0) (hT : s.TMR1IF = false) : AtCyclePos 0 s :=
  ⟨hT, by rw [if_pos (by norm_num)]; exact ⟨ha, ht⟩⟩

/-! ## Claims -/

/-- C1: from any state just after engagement (`turbo_active = true`,
`turbo_timer = 0`, `timer_counter = 0`, any mode), after `k` timer ticks with
`k ≤ 19` the phase is Engaged with count `k` (and the cooldown counter is still
0), and after exactly 20 ticks the phase is CoolingDown with 10 ticks remaining:
`turbo_active = false`, `turbo_timer = 0`, `timer_counter = 10`. -/
theorem engaged_for_twenty_ticks_then_cooldown (s : State)
    (ha : s.turbo_active = true) (ht : s.turbo_timer = 0) (hc : s.timer_counter = 0) :
    (∀ k, k ≤ 19 → (ticks k s).turbo_active = true ∧ (ticks k s).turbo_timer = k ∧
        (ticks k s).timer_counter = 0) ∧
      ((ticks 20 s).turbo_active = false ∧ (ticks 20 s).turbo_timer = 0 ∧
        (ticks 20 s).timer_counter = 10) := by
  refine ⟨fun k hk => ?_, ticks_twenty s ha ht⟩
  obtain ⟨h1, h2, h3⟩ := ticks_engaged s ha ht k hk
  exact ⟨h1, h2, h3.trans hc⟩

/-- Witness for C1 at the state `justEngaged`. -/
theorem engaged_for_twenty_ticks_then_cooldown_witness :
    ((ticks 19 justEngaged).turbo_active = true ∧ (ticks 19 justEngaged).turbo_timer = 19) ∧
      ((ticks 20 justEngaged).turbo_active = false ∧ (ticks 20 justEngaged).turbo_timer = 0 ∧
        (ticks 20 justEngaged).timer_counter = 10) :=
  have h := engaged_for_twenty_ticks_then_cooldown justEngaged rfl rfl rfl
  ⟨⟨(h.1 19 (le_refl 19)).1, (h.1 19 (le_refl 19)).2.1⟩, h.2⟩

/-- C2: from any state just after engagement (any mode, any indicator level),
exactly 30 timer ticks yield `mode = 0`, phase Idle (`turbo_active = false`,
`timer_counter = 0`, `turbo_timer = 0`) and `TURBO_PIN = 0`; after any smaller
number of ticks the phase is not Idle.  The value `timer_counter` has at
engagement plays no part, so it is not assumed to be 0. -/
theorem thirty_ticks_return_to_normal_idle (s : State)
    (ha : s.turbo_active = true) (ht : s.turbo_timer = 0) :
    ((ticks 30 s).mode = 0 ∧ (ticks 30 s).turbo_active = false ∧
        (ticks 30 s).timer_counter = 0 ∧ (ticks 30 s).turbo_timer = 0 ∧
        (ticks 30 s).TURBO_PIN = false) ∧
      (∀ k, k < 30 →
        ¬ ((ticks k s).turbo_active = false ∧ (ticks k s).timer_counter = 0)) := by
  obtain ⟨g1, g2, g3, g4, g5⟩ := ticks_thirty s ha ht
  refine ⟨⟨g4, g1, g3, g2, g5⟩, fun k hk => ?_⟩
  rintro ⟨h1, h2⟩
  by_cases h : k ≤ 19
  · have := (ticks_engaged s ha ht k h).1
    rw [h1] at this
    exact Bool.false_ne_true this
  · obtain ⟨j, rfl⟩ : ∃ j, k = 20 + j := ⟨k - 20, by omega⟩
    have := (ticks_cooldown s ha ht j (by omega)).2.2
    omega

/-- Witness for C2 at the state `justEngaged`. -/
theorem thirty_ticks_return_to_normal_idle_witness :
    ((ticks 30 justEngaged).mode = 0 ∧ (ticks 30 justEngaged).turbo_active = false ∧
        (ticks 30 justEngaged).timer_counter = 0 ∧ (ticks 30 justEngaged).turbo_timer = 0 ∧
        (ticks 30 justEngaged).TURBO_PIN = false) ∧
      ¬ ((ticks 29 justEngaged).turbo_active = false ∧
        (ticks 29 justEngaged).timer_counter = 0) :=
  have h := thirty_ticks_return_to_normal_idle justEngaged rfl rfl
  ⟨h.1, h.2 29 (by decide)⟩

/-- C3, counterexample: from the initial state, a toggle (Normal to Turbo), a
loop iteration with sample 1023 (engagement) and a second toggle (Turbo to
Normal) reach a state with `mode = 0` and `turbo_active = true`. -/
theorem normal_mode_with_engaged_phase_reachable :
    IsInitial init ∧
      (run init [Event.toggle, Event.loop 1023, Event.toggle]).mode = 0 ∧
      (run init [Event.toggle, Event.loop 1023, Event.toggle]).turbo_active = true := by
  refine ⟨⟨rfl, rfl, rfl, rfl, rfl, rfl⟩, ?_, ?_⟩ <;>
    simp [run, step, toggle, loopIteration_eq, ISR, init]

/-- C3, amended: in every state reached from an initial state by ticks, loop
iterations with any samples, and toggles that each happen while the phase is not
Engaged (`turbo_active = false`), `mode = 0` implies `turbo_active = false`. -/
theorem normal_mode_not_engaged_when_toggles_outside_engaged (s : State)
    (es : List Event) (hinit : IsInitial s) (hg : TogglesWhileNotEngaged s es)
    (hm : (run s es).mode = 0) : (run s es).turbo_active = false :=
  run_preserves_normal_not_engaged es s hinit.2.2.2.2.1 (fun _ => hinit.2.1) hg hm

/-- Witness for the amended C3: toggle into Turbo, run the loop below full
throttle, toggle back to Normal, run the loop again. -/
theorem normal_mode_not_engaged_when_toggles_outside_engaged_witness :
    (run init [Event.toggle, Event.loop 512, Event.toggle, Event.loop 512]).turbo_active
      = false :=
  normal_mode_not_engaged_when_toggles_outside_engaged init
    [Event.toggle, Event.loop 512, Event.toggle, Event.loop 512]
    ⟨rfl, rfl, rfl, rfl, rfl, rfl⟩
    (by simp [TogglesWhileNotEngaged, step, toggle, loopIteration_eq, ISR, init])
    (by simp [run, step, toggle, loopIteration_eq, ISR, init])

/-- C4: clamp property, in exact rational arithmetic.  For every sample (no
upper bound on it is needed), the Normal-mode percent lies in `[0, 100]` and the
Turbo-mode percent in `[0, 115]`; hence the `acel_percent` a loop iteration
stores lies in `[0, 100]` when `mode = 0` and in `[0, 115]` otherwise. -/
theorem percent_clamped (adc_value : Nat) (s : State) :
    (0 ≤ normalPercent adc_value ∧ normalPercent adc_value ≤ 100) ∧
      (0 ≤ turboPercent adc_value ∧ turboPercent adc_value ≤ 115) ∧
      0 ≤ (loopIteration adc_value s).acel_percent ∧
      (loopIteration adc_value s).acel_percent ≤ (if s.mode = 0 then 100 else 115) := by
  refine ⟨⟨normalPercent_nonneg _, normalPercent_le _⟩,
    ⟨turboPercent_nonneg _, turboPercent_le _⟩, ?_, ?_⟩
  · rw [loopIteration_acel_percent]
    split_ifs
    · exact normalPercent_nonneg _
    · exact turboPercent_nonneg _
  · rw [loopIteration_acel_percent]
    split_ifs
    · exact normalPercent_le _
    · exact turboPercent_le _

/-- C5: engagement condition of one loop iteration.  For an Idle state
(`turbo_active = false`, `timer_counter = 0`) and a sample `adc_value ≤ 1023`:
the iteration yields `turbo_active = true` and `turbo_timer = 0` if and only if
`mode ≠ 0` and the Turbo percent equals 115; the Turbo percent equals 115 if and
only if the sample is 1023; in Turbo mode the stored percent is the Turbo
percent; and in Normal mode, or with a sample below 1023, the phase stays
Idle. -/
theorem engagement_iff_turbo_at_ceiling (adc_value : Nat) (s : State)
    (ha : s.turbo_active = false) (hc : s.timer_counter = 0) (hadc : adc_value ≤ 1023) :
    (((loopIteration adc_value s).turbo_active = true ∧
          (loopIteration adc_value s).turbo_timer = 0) ↔
        (s.mode ≠ 0 ∧ turboPercent adc_value = 115)) ∧
      (turboPercent adc_value = 115 ↔ adc_value = 1023) ∧
      (s.mode ≠ 0 → (loopIteration adc_value s).acel_percent = turboPercent adc_value) ∧
      (s.mode = 0 ∨ adc_value < 1023 →
        (loopIteration adc_value s).turbo_active = false ∧
          (loopIteration adc_value s).timer_counter = 0) := by
  refine ⟨⟨fun h => ?_, fun h => ?_⟩, ?_, fun hm => ?_, fun h => ?_⟩
  · by_contra hn
    have hidle : s.mode = 0 ∨ adc_value < 1023 := by
      by_cases hm : s.mode = 0
      · exact Or.inl hm
      · refine Or.inr (Nat.lt_of_not_le fun hle => hn ⟨hm, ?_⟩)
        exact (turboPercent_eq_ceiling_iff adc_value).mpr hle
    have := (loopIteration_idle_stays adc_value s hidle ha).1
    rw [h.1] at this
    exact Bool.false_ne_true this.symm
  · have hle := (turboPercent_eq_ceiling_iff adc_value).mp h.2
    obtain ⟨h1, h2, _, _⟩ := loopIteration_engage adc_value s h.1 hle ha hc
    exact ⟨h1, h2⟩
  · rw [turboPercent_eq_ceiling_iff]
    omega
  · rw [loopIteration_acel_percent, if_neg hm]
  · obtain ⟨h1, _, h3⟩ := loopIteration_idle_stays adc_value s h ha
    exact ⟨h1, h3.trans hc⟩

/-- Witness for C5: sample 1023 in Turbo mode, phase Idle, gives percent exactly
115 and phase Engaged with count 0. -/
theorem engagement_iff_turbo_at_ceiling_witness :
    (loopIteration 1023 idleTurbo).acel_percent = 115 ∧
      (loopIteration 1023 idleTurbo).turbo_active = true ∧
      (loopIteration 1023 idleTurbo).turbo_timer = 0 :=
  have h := engagement_iff_turbo_at_ceiling 1023 idleTurbo rfl rfl (le_refl 1023)
  have hm : idleTurbo.mode ≠ 0 := Nat.succ_ne_zero 0
  have hp : turboPercent 1023 = 115 := h.2.1.mpr rfl
  ⟨(h.2.2.1 hm).trans hp, h.1.mpr ⟨hm, hp⟩⟩

/-- C6: engagement is a no-op unless the phase is Idle, and is idempotent.  If
`turbo_active = true` or `timer_counter > 0`, a loop iteration with any sample in
any mode leaves `turbo_active`, `turbo_timer` and `timer_counter` unchanged.  From
an Idle state in Turbo mode, an iteration with sample 1023 gives Engaged with count
0, and a second iteration (with sample 1023 or any other) gives the same three
values. -/
theorem engage_noop_unless_idle_and_idempotent (adc_value : Nat) (s : State) :
    ((s.turbo_active = true ∨ 0 < s.timer_counter) →
        (loopIteration adc_value s).turbo_active = s.turbo_active ∧
          (loopIteration adc_value s).turbo_timer = s.turbo_timer ∧
          (loopIteration adc_value s).timer_counter = s.timer_counter) ∧
      (s.turbo_active = false → s.timer_counter = 0 → s.mode ≠ 0 →
        ((loopIteration 1023 s).turbo_active = true ∧
          (loopIteration 1023 s).turbo_timer = 0 ∧
          (loopIteration 1023 s).timer_counter = 0) ∧
        ((loopIteration adc_value (loopIteration 1023 s)).turbo_active = true ∧
          (loopIteration adc_value (loopIteration 1023 s)).turbo_timer = 0 ∧
          (loopIteration adc_value (loopIteration 1023 s)).timer_counter = 0)) := by
  refine ⟨loopIteration_phase_of_not_idle adc_value s, fun ha hc hm => ?_⟩
  obtain ⟨h1, h2, h3, _⟩ := loopIteration_engage 1023 s hm (le_refl 1023) ha hc
  obtain ⟨g1, g2, g3⟩ :=
    loopIteration_phase_of_not_idle adc_value (loopIteration 1023 s) (Or.inl h1)
  exact ⟨⟨h1, h2, h3⟩, g1.trans h1, g2.trans h2, g3.trans h3⟩

/-- Witness for C6: a running engage count of 7 survives a loop iteration at
full throttle, and two iterations at full throttle from Idle in Turbo mode give
Engaged with count 0. -/
theorem engage_noop_unless_idle_and_idempotent_witness :
    (loopIteration 1023 engagedTogglePending).turbo_timer = 7 ∧
      ((loopIteration 1023 (loopIteration 1023 idleTurbo)).turbo_active = true ∧
        (loopIteration 1023 (loopIteration 1023 idleTurbo)).turbo_timer = 0 ∧
        (loopIteration 1023 (loopIteration 1023 idleTurbo)).timer_counter = 0) :=
  ⟨((engage_noop_unless_idle_and_idempotent 1023 engagedTogglePending).1
      (Or.inl rfl)).2.1,
    ((engage_noop_unless_idle_and_idempotent 1023 idleTurbo).2 rfl rfl
      (Nat.succ_ne_zero 0)).2⟩

/-- C7: toggle flips the mode unconditionally.  For every state, one run of
`ISR` with only `INTF` set turns `mode = 0` into 1 and any non-zero `mode` into
0, and clears `INTF`; when `mode` is 0 or 1, a second toggle restores the
original `mode`. -/
theorem toggle_flips_mode (s : State) (hI : s.INTF = true) (hT : s.TMR1IF = false) :
    (s.mode = 0 → (ISR s).mode = 1) ∧ (s.mode ≠ 0 → (ISR s).mode = 0) ∧
      (ISR s).INTF = false ∧
      (s.mode = 0 ∨ s.mode = 1 → (toggle (ISR s)).mode = s.mode) := by
  have h1 := ISR_of_INTF_only s hI hT
  have h2 : toggle (ISR s) = ISR { ISR s with INTF := true } := rfl
  have h3 := ISR_of_INTF_only { ISR s with INTF := true } rfl
    (by rw [h1]; exact hT)
  refine ⟨fun hm => ?_, fun hm => ?_, ?_, fun hm => ?_⟩
  · rw [h1]; simp [hm]
  · rw [h1]; simp [hm]
  · rw [h1]
  · rw [h2, h3, h1]
    rcases hm with hm | hm <;> simp [hm]

/-- Witness for C7: a toggle while engaged in Turbo mode gives Normal mode, and
a second toggle gives Turbo mode again. -/
theorem toggle_flips_mode_witness :
    (ISR engagedTogglePending).mode = 0 ∧ (ISR engagedTogglePending).INTF = false ∧
      (toggle (ISR engagedTogglePending)).mode = 1 :=
  have h := toggle_flips_mode engagedTogglePending rfl rfl
  ⟨h.2.1 (Nat.succ_ne_zero 0), h.2.2.1, h.2.2.2 (Or.inr rfl)⟩

/-- C8: toggle does not reset the turbo phase.  For every state, one run of
`ISR` with only `INTF` set leaves `turbo_active`, `turbo_timer` and
`timer_counter` unchanged. -/
theorem toggle_keeps_phase (s : State) (hI : s.INTF = true) (hT : s.TMR1IF = false) :
    (ISR s).turbo_active = s.turbo_active ∧ (ISR s).turbo_timer = s.turbo_timer ∧
      (ISR s).timer_counter = s.timer_counter := by
  rw [ISR_of_INTF_only s hI hT]
  exact ⟨rfl, rfl, rfl⟩

/-- Witness for C8: a toggle from Turbo into Normal while Engaged with count 7
leaves the phase Engaged with count 7. -/
theorem toggle_keeps_phase_witness :
    (ISR engagedTogglePending).turbo_active = true ∧
      (ISR engagedTogglePending).turbo_timer = 7 ∧
      (ISR engagedTogglePending).timer_counter = 0 :=
  toggle_keeps_phase engagedTogglePending rfl rfl

/-- C9: a tick in the Idle phase is a no-op on the control state.  For every
state with `turbo_active = false` and `timer_counter = 0`, one run of `ISR` with
only `TMR1IF` set leaves `mode`, `turbo_active`, `turbo_timer`, `timer_counter`,
`TURBO_PIN` and `NORMAL_PIN` unchanged; it clears `TMR1IF` and reloads `TMR1L`
and `TMR1H` with `0xDC` and `0x0B`. -/
theorem idle_tick_is_noop (s : State) (ha : s.turbo_active = false)
    (hc : s.timer_counter = 0) (hI : s.INTF = false) (hT : s.TMR1IF = true) :
    ((ISR s).mode = s.mode ∧ (ISR s).turbo_active = s.turbo_active ∧
        (ISR s).turbo_timer = s.turbo_timer ∧ (ISR s).timer_counter = s.timer_counter ∧
        (ISR s).TURBO_PIN = s.TURBO_PIN ∧ (ISR s).NORMAL_PIN = s.NORMAL_PIN) ∧
      ((ISR s).TMR1IF = false ∧ (ISR s).TMR1L = 0xDC ∧ (ISR s).TMR1H = 0x0B) ∧
      ISR s = { s with TMR1IF := false, TMR1L := 0xDC, TMR1H := 0x0B } := by
  have h := ISR_idle_of_TMR1IF_only s ha hc hI hT
  refine ⟨?_, ?_, h⟩
  · rw [h]; exact ⟨rfl, rfl, rfl, rfl, rfl, rfl⟩
  · rw [h]; exact ⟨rfl, rfl, rfl⟩

/-- Witness for C9: a tick in Turbo mode with the phase Idle. -/
theorem idle_tick_is_noop_witness :
    (ISR { idleTurbo with TMR1IF := true }).mode = 1 ∧
      (ISR { idleTurbo with TMR1IF := true }).turbo_active = false ∧
      (ISR { idleTurbo with TMR1IF := true }).timer_counter = 0 ∧
      (ISR { idleTurbo with TMR1IF := true }).TMR1IF = false :=
  have h := idle_tick_is_noop { idleTurbo with TMR1IF := true } rfl rfl rfl rfl
  ⟨h.1.1, h.1.2.1, h.1.2.2.2.1, h.2.1.1⟩

/-- C10: last cooldown tick.  For every state with `turbo_active = false` and
`timer_counter = 1`, whatever the mode and the indicator level (and whether or
not an external interrupt is pending as well), one timer tick yields
`timer_counter = 0`, `turbo_active = false`, `mode = 0` and `TURBO_PIN = 0`. -/
theorem last_cooldown_tick_forces_normal (s : State) (ha : s.turbo_active = false)
    (hc : s.timer_counter = 1) (hT : s.TMR1IF = true) :
    (ISR s).timer_counter = 0 ∧ (ISR s).turbo_active = false ∧ (ISR s).mode = 0 ∧
      (ISR s).TURBO_PIN = false :=
  ISR_cooldown_last s ha hc hT

/-- Witness for C10: Turbo mode, indicator on, one cooldown tick remaining. -/
theorem last_cooldown_tick_forces_normal_witness :
    (ISR cooldownLastTickPending).timer_counter = 0 ∧
      (ISR cooldownLastTickPending).turbo_active = false ∧
      (ISR cooldownLastTickPending).mode = 0 ∧
      (ISR cooldownLastTickPending).TURBO_PIN = false :=
  last_cooldown_tick_forces_normal cooldownLastTickPending rfl rfl rfl

/-- C11: intermediate cooldown tick.  For every state with
`turbo_active = false` and `timer_counter = r` with `r ≥ 2`, one run of `ISR`
with only `TMR1IF` set gives `timer_counter = r - 1` (strictly smaller, still
positive), negates `TURBO_PIN`, and leaves `mode` and `turbo_active`
unchanged. -/
theorem intermediate_cooldown_tick (s : State) (ha : s.turbo_active = false)
    (hc : 2 ≤ s.timer_counter) (hI : s.INTF = false) (hT : s.TMR1IF = true) :
    ((ISR s).timer_counter + 1 = s.timer_counter ∧
        (ISR s).timer_counter = s.timer_counter - 1 ∧
        (ISR s).timer_counter < s.timer_counter ∧ 0 < (ISR s).timer_counter) ∧
      (ISR s).TURBO_PIN = (!s.TURBO_PIN) ∧
      (ISR s).mode = s.mode ∧ (ISR s).turbo_active = s.turbo_active := by
  have h := ISR_cooldown_mid s ha hc hI hT
  have hcnt : (ISR s).timer_counter = s.timer_counter - 1 := by rw [h]
  refine ⟨⟨?_, hcnt, ?_, ?_⟩, ?_, ?_, ?_⟩
  · omega
  · omega
  · omega
  · rw [h]
  · rw [h]
  · rw [h]

/-- Witness for C11: Turbo mode, five cooldown ticks remaining, indicator on. -/
theorem intermediate_cooldown_tick_witness :
    (ISR cooldownMidTickPending).timer_counter = 4 ∧
      (ISR cooldownMidTickPending).TURBO_PIN = false ∧
      (ISR cooldownMidTickPending).mode = 1 ∧
      (ISR cooldownMidTickPending).turbo_active = false :=
  have h := intermediate_cooldown_tick cooldownMidTickPending rfl (by decide) rfl rfl
  ⟨h.1.2.1, h.2.1, h.2.2.1, h.2.2.2⟩

/-- C12: both mappings equal their reference formulas, in exact rational
arithmetic.  For every sample the Normal-mode percent is
`min 100 (s / 889.56 * 100)` and the Turbo-mode percent is
`min 115 (s / 1023 * 115)`, which are also the clamped formulas
`normalPercentSpec` and `turboPercentSpec`.  Sample 512 gives a Normal-mode
percent in `[57.55, 57.65)`, and a loop iteration in Normal mode with sample 512
stores that percent and is followed by the LCD line `Modo: Normal`, the caption
with the label Normal. -/
theorem percent_equals_reference_formula (adc_value : Nat) (s : State) :
    (normalPercent adc_value = min 100 ((adc_value : ℚ) / (88956 / 100) * 100) ∧
        turboPercent adc_value = min 115 ((adc_value : ℚ) / 1023 * 115)) ∧
      (normalPercent adc_value = normalPercentSpec adc_value ∧
        turboPercent adc_value = turboPercentSpec adc_value) ∧
      ((5755 / 100 : ℚ) ≤ normalPercent 512 ∧ normalPercent 512 < 5765 / 100) ∧
      (s.mode = 0 →
        (loopIteration 512 s).acel_percent = normalPercent 512 ∧
          modeLine (loopIteration 512 s) = "Modo: " ++ "Normal") := by
  refine ⟨⟨normalPercent_eq_min _, turboPercent_eq_min _⟩,
    ⟨normalPercent_eq_spec _, turboPercent_eq_spec _⟩, ?_, fun hm => ⟨?_, ?_⟩⟩
  · rw [normalPercent_of_le 512 (by norm_num)]
    norm_num
  · rw [loopIteration_acel_percent, if_pos hm]
  · exact modeLine_of_normal _ ((loopIteration_mode 512 s).trans hm)

/-- Witness for C12: sample 512 in the initial state, which is in Normal mode. -/
theorem percent_equals_reference_formula_witness :
    ((5755 / 100 : ℚ) ≤ (loopIteration 512 init).acel_percent ∧
        (loopIteration 512 init).acel_percent < 5765 / 100) ∧
      modeLine (loopIteration 512 init) = "Modo: Normal" :=
  have h := percent_equals_reference_formula 512 init
  have h2 := h.2.2.2 rfl
  ⟨⟨h2.1.symm ▸ h.2.2.1.1, h2.1.symm ▸ h.2.2.1.2⟩, h2.2⟩

/-- C13: Normal mode saturates before the full scale of the sensor, in exact
rational arithmetic.  For every sample (in particular those up to 1023) the
Normal-mode percent is exactly 100 if and only if the sample is at least 890; it
is strictly below 100 for every sample up to 889; and some sample below 1023
maps to exactly 100. -/
theorem normal_saturates_below_full_scale (adc_value : Nat) :
    (normalPercent adc_value = 100 ↔ 890 ≤ adc_value) ∧
      (adc_value ≤ 889 → normalPercent adc_value < 100) ∧
      (∃ sample : Nat, sample < 1023 ∧ normalPercent sample = 100) := by
  refine ⟨⟨fun h => ?_, normalPercent_of_ge adc_value⟩,
    normalPercent_lt_of_le adc_value, ⟨890, by norm_num, normalPercent_of_ge 890 le_rfl⟩⟩
  by_contra hn
  have := normalPercent_lt_of_le adc_value (by omega)
  rw [h] at this
  exact lt_irrefl _ this

/-- Witness for C13: sample 889 is below 100 percent, sample 890 is at 100. -/
theorem normal_saturates_below_full_scale_witness :
    normalPercent 889 < 100 ∧ normalPercent 890 = 100 :=
  ⟨(normal_saturates_below_full_scale 889).2.1 (le_refl 889),
    (normal_saturates_below_full_scale 890).1.mpr (le_refl 890)⟩

/-- C14: `mode` is changed only by the toggle and by the tick that completes
the cooldown.  A loop iteration leaves `mode` unchanged for every state and
sample.  A run of `ISR` with only `TMR1IF` set sets `mode = 0` when
`turbo_active = false` and `timer_counter = 1`, and leaves `mode` unchanged in
every other state; in particular the tick that ends the engage period
(`turbo_timer = 19`, giving `timer_counter = 10`) leaves `mode` unchanged. -/
theorem mode_changed_only_by_toggle_and_cooldown_end (adc_value : Nat) (s : State) :
    (loopIteration adc_value s).mode = s.mode ∧
      (s.INTF = false → s.TMR1IF = true →
        ((s.turbo_active = false ∧ s.timer_counter = 1) → (ISR s).mode = 0) ∧
        (¬ (s.turbo_active = false ∧ s.timer_counter = 1) → (ISR s).mode = s.mode) ∧
        (s.turbo_active = true → s.turbo_timer = 19 →
          (ISR s).mode = s.mode ∧ (ISR s).turbo_active = false ∧
            (ISR s).timer_counter = 10)) := by
  refine ⟨loopIteration_mode adc_value s, fun hI hT => ⟨fun h => ?_, fun h => ?_,
    fun ha ht => ⟨ISR_mode_of_turbo_active s hI ha, ?_, ?_⟩⟩⟩
  · rw [ISR_mode_of_TMR1IF_only s hI hT, if_pos h]
  · rw [ISR_mode_of_TMR1IF_only s hI hT, if_neg h]
  · exact (ISR_engaged_last s ha ht hT).1
  · exact (ISR_engaged_last s ha ht hT).2.2

/-- Witness for C14: the tick ending the engage period keeps Turbo mode, the
last cooldown tick of C10 is the one that sets Normal mode, and a loop iteration
at full throttle keeps the mode. -/
theorem mode_changed_only_by_toggle_and_cooldown_end_witness :
    ((ISR engagedLastTickPending).mode = 1 ∧
        (ISR engagedLastTickPending).turbo_active = false ∧
        (ISR engagedLastTickPending).timer_counter = 10) ∧
      (ISR cooldownLastTickPending).mode = 0 ∧
      (loopIteration 1023 idleTurbo).mode = 1 :=
  ⟨((mode_changed_only_by_toggle_and_cooldown_end 0 engagedLastTickPending).2
      rfl rfl).2.2 rfl rfl,
    ((mode_changed_only_by_toggle_and_cooldown_end 0 cooldownLastTickPending).2
      rfl rfl).1 ⟨rfl, rfl⟩,
    (mode_changed_only_by_toggle_and_cooldown_end 1023 idleTurbo).1⟩

/-- C15: counter bounds are an invariant of the reachable states.  In every
state reached from an initial state by any sequence of toggles, ticks and loop
iterations with arbitrary samples, `turbo_timer < 20` and
`timer_counter ≤ 10` (both are unsigned, hence at least 0). -/
theorem counters_bounded_in_reachable_states (s : State) (es : List Event)
    (hinit : IsInitial s) :
    (0 ≤ (run s es).turbo_timer ∧ (run s es).turbo_timer < 20) ∧
      (0 ≤ (run s es).timer_counter ∧ (run s es).timer_counter ≤ 10) := by
  have h0 : s.turbo_timer < 20 ∧ s.timer_counter ≤ 10 := by
    obtain ⟨_, _, h3, h4, _, _⟩ := hinit
    rw [h3, h4]; exact ⟨by norm_num, by norm_num⟩
  obtain ⟨h1, h2⟩ := run_counters_bounded es s h0
  exact ⟨⟨Nat.zero_le _, h1⟩, ⟨Nat.zero_le _, h2⟩⟩

/-- Witness for C15: twenty-five rounds of toggle, full-throttle loop iteration
and tick from the initial state. -/
theorem counters_bounded_in_reachable_states_witness :
    (0 ≤ (run init (interleaved 25)).turbo_timer ∧
        (run init (interleaved 25)).turbo_timer < 20) ∧
      (0 ≤ (run init (interleaved 25)).timer_counter ∧
        (run init (interleaved 25)).timer_counter ≤ 10) :=
  counters_bounded_in_reachable_states init (interleaved 25)
    ⟨rfl, rfl, rfl, rfl, rfl, rfl⟩

/-- C16: the engage and cooldown cycle runs to completion whatever is
interleaved.  From any state just after engagement (`turbo_active = true`,
`turbo_timer = 0`) with no timer interrupt pending, for every sequence `es` of
toggles, loop iterations with arbitrary samples and ticks: if `es` holds 19
ticks, the state right after one more tick (the 20th) has `turbo_active = false`,
`turbo_timer = 0`, `timer_counter = 10`; if `es` holds 29 ticks, the state right
after one more tick (the 30th) has `mode = 0`, `turbo_active = false` and
`timer_counter = 0`.  The value of `timer_counter` at engagement plays no
part. -/
theorem cycle_completes_under_interleaving (s : State) (es : List Event)
    (ha : s.turbo_active = true) (ht : s.turbo_timer = 0) (hT : s.TMR1IF = false) :
    (tickCount es = 19 →
        (run s (es ++ [Event.tick])).turbo_active = false ∧
          (run s (es ++ [Event.tick])).turbo_timer = 0 ∧
          (run s (es ++ [Event.tick])).timer_counter = 10) ∧
      (tickCount es = 29 →
        (run s (es ++ [Event.tick])).mode = 0 ∧
          (run s (es ++ [Event.tick])).turbo_active = false ∧
          (run s (es ++ [Event.tick])).timer_counter = 0) := by
  have h0 := AtCyclePos_zero s ha ht hT
  have hstep : run s (es ++ [Event.tick]) = tick (run s es) :=
    run_append_singleton es Event.tick s
  constructor
  · intro hk
    have hp := run_AtCyclePos es 0 s h0 (by omega)
    rw [Nat.zero_add, hk] at hp
    have hq := hp.2
    rw [if_pos (by norm_num)] at hq
    rw [hstep]
    exact tick_turbo_active_last (run s es) hq.1 hq.2
  · intro hk
    have hp := run_AtCyclePos es 0 s h0 (by omega)
    rw [Nat.zero_add, hk] at hp
    have hq := hp.2
    rw [if_neg (by norm_num)] at hq
    obtain ⟨g1, _, g3, g4, _⟩ := tick_cooldown_last (run s es) hq.1 hq.2.2
    rw [hstep]
    exact ⟨g4, g1, g3⟩

/-- Witness for C16: every tick preceded by a toggle and a loop iteration at
full throttle. -/
theorem cycle_completes_under_interleaving_witness :
    ((run justEngaged (interleaved 19 ++ [Event.tick])).turbo_active = false ∧
        (run justEngaged (interleaved 19 ++ [Event.tick])).turbo_timer = 0 ∧
        (run justEngaged (interleaved 19 ++ [Event.tick])).timer_counter = 10) ∧
      ((run justEngaged (interleaved 29 ++ [Event.tick])).mode = 0 ∧
        (run justEngaged (interleaved 29 ++ [Event.tick])).turbo_active = false ∧
        (run justEngaged (interleaved 29 ++ [Event.tick])).timer_counter = 0) :=
  ⟨(cycle_completes_under_interleaving justEngaged (interleaved 19) rfl rfl rfl).1 rfl,
    (cycle_completes_under_interleaving justEngaged (interleaved 29) rfl rfl rfl).2 rfl⟩

/-- C17: the loose flags never encode an illegal phase.  In every state reached
from an initial state by any sequence of toggles, ticks and loop iterations with
arbitrary samples, `turbo_active = true` implies `timer_counter = 0`, and
`turbo_timer ≠ 0` implies `turbo_active = true`. -/
theorem phase_flags_legal_in_reachable_states (s : State) (es : List Event)
    (hinit : IsInitial s) :
    ((run s es).turbo_active = true → (run s es).timer_counter = 0) ∧
      ((run s es).turbo_timer ≠ 0 → (run s es).turbo_active = true) := by
  obtain ⟨_, _, h3, h4, _, _⟩ := hinit
  exact run_phase_legal es s ⟨fun _ => h4, fun h => absurd h3 h⟩

/-- Witness for C17: after a toggle into Turbo, engagement and one tick, the
engage count is 1, so `turbo_active` is set and the cooldown counter is 0. -/
theorem phase_flags_legal_in_reachable_states_witness :
    (run init [Event.toggle, Event.loop 1023, Event.tick]).turbo_active = true ∧
      (run init [Event.toggle, Event.loop 1023, Event.tick]).timer_counter = 0 :=
  have h := phase_flags_legal_in_reachable_states init
    [Event.toggle, Event.loop 1023, Event.tick] ⟨rfl, rfl, rfl, rfl, rfl, rfl⟩
  have ht : (run init [Event.toggle, Event.loop 1023, Event.tick]).turbo_timer ≠ 0 := by
    simp [run, step, toggle, tick, loopIteration_eq, ISR, init]
  ⟨h.2 ht, h.1 (h.2 ht)⟩

/-- C18: after every loop iteration the two indicators are complementary and
show the mode read by the iteration, whatever the phase: with `mode = 0`,
`NORMAL_PIN = 1` and `TURBO_PIN = 0`; otherwise `NORMAL_PIN = 0` and
`TURBO_PIN = 1`.  The level `TURBO_PIN` had before, such as the one left by the
last blink of a cooldown tick, is overwritten. -/
theorem loop_sets_complementary_indicators (adc_value : Nat) (s : State) :
    (s.mode = 0 → (loopIteration adc_value s).NORMAL_PIN = true ∧
        (loopIteration adc_value s).TURBO_PIN = false) ∧
      (s.mode ≠ 0 → (loopIteration adc_value s).NORMAL_PIN = false ∧
        (loopIteration adc_value s).TURBO_PIN = true) ∧
      (loopIteration adc_value s).NORMAL_PIN = (!(loopIteration adc_value s).TURBO_PIN) ∧
      (loopIteration adc_value s).mode = s.mode := by
  obtain ⟨h1, h2⟩ := loopIteration_pins adc_value s
  refine ⟨fun hm => ?_, fun hm => ?_, ?_, loopIteration_mode adc_value s⟩
  · rw [h1, h2]; simp [hm]
  · rw [h1, h2]; simp [hm]
  · rw [h1, h2]; simp

/-- Witness for C18: during the cooldown, a loop iteration in Turbo mode turns
the indicator back on after a blink turned it off, and one in Normal mode turns
it off after a blink turned it on. -/
theorem loop_sets_complementary_indicators_witness :
    ((loopIteration 700 cooldownBlinkOff).NORMAL_PIN = false ∧
        (loopIteration 700 cooldownBlinkOff).TURBO_PIN = true) ∧
      ((loopIteration 700 cooldownNormalBlinkOn).NORMAL_PIN = true ∧
        (loopIteration 700 cooldownNormalBlinkOn).TURBO_PIN = false) :=
  ⟨(loop_sets_complementary_indicators 700 cooldownBlinkOff).2.1 (Nat.succ_ne_zero 0),
    (loop_sets_complementary_indicators 700 cooldownNormalBlinkOn).1 rfl⟩

/-- C19: Turbo mode keeps the Normal pedal curve and extends it above 100
percent, in exact rational arithmetic.  For every sample up to 889 the Normal
percent exceeds the Turbo percent by at least 0 and less than one thousandth;
for every sample from 890 to 1023 the Normal percent is 100 and the Turbo percent
is above 100 and at most 115; both mappings are monotone non-decreasing. -/
theorem turbo_extends_normal_curve (a b : Nat) :
    (a ≤ 889 → 0 ≤ normalPercent a - turboPercent a ∧
        normalPercent a - turboPercent a < 1 / 1000) ∧
      (890 ≤ a → a ≤ 1023 →
        normalPercent a = 100 ∧ 100 < turboPercent a ∧ turboPercent a ≤ 115) ∧
      (a ≤ b → normalPercent a ≤ normalPercent b ∧ turboPercent a ≤ turboPercent b) :=
  ⟨percent_gap_below_saturation a,
    fun h1 h2 => ⟨normalPercent_of_ge a h1, turboPercent_gt_of_ge a h1 h2, turboPercent_le a⟩,
    fun h => ⟨normalPercent_mono a b h, turboPercent_mono a b h⟩⟩

/-- Witness for C19: the gap at sample 889, the values at sample 890, and the
order between samples 512 and 1023. -/
theorem turbo_extends_normal_curve_witness :
    (0 ≤ normalPercent 889 - turboPercent 889 ∧
        normalPercent 889 - turboPercent 889 < 1 / 1000) ∧
      (normalPercent 890 = 100 ∧ 100 < turboPercent 890 ∧ turboPercent 890 ≤ 115) ∧
      (normalPercent 512 ≤ normalPercent 1023 ∧ turboPercent 512 ≤ turboPercent 1023) :=
  ⟨(turbo_extends_normal_curve 889 889).1 (le_refl 889),
    (turbo_extends_normal_curve 890 890).2.1 (le_refl 890) (by decide),
    (turbo_extends_normal_curve 512 1023).2.2 (by decide)⟩

end ECU
